import Mathlib

/-!
Verification of the `rag_model` core of the ChatBotBE repository.

The development shallowly embeds the functions of
`src/rag_model/rag_utils.py` that the claims talk about.  External
collaborators (the AWS S3 Vectors backend, the embedding service, the SQS
queue, object storage) are modelled at their interface boundary exactly as
the specification section 6 describes them: the vector backend keeps a list
of records and honours the tenant metadata filter, pagination and batch
deletes; every fallible external call is a parameter carrying either its
result or the raised client-error code.  Python exceptions are modelled by
an `Except` result; an unresolved module-global name (Python `NameError`)
is modelled by looking the name up in the explicit list of names bound at
module level in `rag_utils.py`.
-/

/-- A Python exception as it matters to the embedded code: either a
botocore `ClientError` carrying an error code, or a `NameError` for an
unbound module-global name. -/
inductive PyErr where
  | clientError (code : String)
  | nameError (missing : String)
deriving DecidableEq

/-- Embedding vectors.  The claims never inspect the numeric payload of a
vector, so the float32 entries are abstracted as integers. -/
abbrev EmbVec := List Int

/-- Metadata stored with every vector record, mirroring the payload built
in `index_tenant_files` (rag_utils.py lines 326-330): the keys
`tenant_id`, `source` and `content_preview`. -/
structure VecMeta where
  tenant_id : String
  source : String
  content_preview : String
deriving DecidableEq

/-- One record of the shared S3 Vectors index: an opaque key, the
embedding data and the filterable metadata. -/
structure VectorRecord where
  key : String
  data : EmbVec
  metadata : VecMeta
deriving DecidableEq

/-- The state of the shared vector index: the records it holds for all
tenants. -/
structure VecStore where
  records : List VectorRecord
deriving DecidableEq

/-- Python `str.lower()`, modelled character-wise (the questions and table
keys of interest are ASCII, where `Char.toLower` agrees with Python). -/
def pyLower (s : String) : String :=
  ⟨s.data.map Char.toLower⟩

/-- Python `str.strip()`: remove leading and trailing whitespace. -/
def pyStrip (s : String) : String :=
  ⟨((s.data.dropWhile Char.isWhitespace).reverse.dropWhile Char.isWhitespace).reverse⟩

/-- Splitting a character list at newline characters. -/
def splitNl : List Char → List (List Char)
  | [] => [[]]
  | c :: cs =>
    match splitNl cs with
    | [] => [[]]
    | hd :: tl => if c = '\n' then [] :: hd :: tl else (c :: hd) :: tl

/-- Python `str.splitlines` on the URL registry content, modelled by
splitting at newlines (a trailing newline yields a final empty element,
which the blank-line guard discards in both languages). -/
def pySplitLines (s : String) : List String :=
  (splitNl s.data).map (fun l => ⟨l⟩)

/-- Does a record carry the given tenant tag?  Both query paths of the
source attach this equality filter on the `tenant_id` metadata key
(rag_utils.py line 231 uses `{"eq": str(tenant_id)}`, line 367 the
shorthand `str(tenant_id)`; the backend treats both as equality). -/
def matchesTenant (tag : String) (r : VectorRecord) : Bool :=
  r.metadata.tenant_id == tag

/-- Backend semantics of a tenant-filtered query, from spec section 6:
`query-vectors` returns only records whose `tenant_id` metadata equals the
filter value. -/
def queryVectorsFiltered (store : VecStore) (tag : String) : List VectorRecord :=
  store.records.filter (matchesTenant tag)

/-- Backend semantics of a top-k similarity query: the filtered records
are ordered by an arbitrary similarity ranking `rank` (the embedding
geometry is abstract) and the first `topK` are returned. -/
def queryVectorsBackend (store : VecStore) (tag : String) (topK : Nat)
    (rank : List VectorRecord → List VectorRecord) : List VectorRecord :=
  (rank (queryVectorsFiltered store tag)).take topK

/-- Backend semantics of `delete_vectors`: every record whose key is among
`keys` is removed. -/
def deleteVectorsBackend (store : VecStore) (keys : List String) : VecStore :=
  ⟨store.records.filter (fun r => !(keys.contains r.key))⟩

/-- The paginated scan loop of `delete_tenant_vectors` (rag_utils.py lines
225-243): each `query_vectors` call returns a page of at most 30 matching
records (`topK: 30`) plus a continuation token, and the loop accumulates
the keys until the token is exhausted.  The argument is the full filtered
result list; one recursion step is one page. -/
def scanTenantKeys (l : List VectorRecord) : List String :=
  if h : l.isEmpty then []
  else ((l.take 30).map (fun r => r.key)) ++ scanTenantKeys (l.drop 30)
termination_by l.length
decreasing_by
  simp only [List.length_drop]
  have hl : l ≠ [] := by simpa [List.isEmpty_iff] using h
  have hp : 0 < l.length := List.length_pos.mpr hl
  omega

/-- The batching of accumulated keys into `delete_vectors` calls of at
most 100 keys each (rag_utils.py lines 247-253). -/
def chunkKeys (ks : List String) : List (List String) :=
  if h : ks.isEmpty then []
  else ks.take 100 :: chunkKeys (ks.drop 100)
termination_by ks.length
decreasing_by
  simp only [List.length_drop]
  have hl : ks ≠ [] := by simpa [List.isEmpty_iff] using h
  have hp : 0 < ks.length := List.length_pos.mpr hl
  omega

/-- Applying a sequence of batched delete calls to the store. -/
def runDeleteBatches (store : VecStore) (bs : List (List String)) : VecStore :=
  bs.foldl deleteVectorsBackend store

/-- What a completed `delete_tenant_vectors` run did: the store it left
behind and the key batches passed to the `delete_vectors` calls. -/
structure DeleteOutcome where
  store : VecStore
  batches : List (List String)
deriving DecidableEq

/-- The happy-path body of `delete_tenant_vectors` (rag_utils.py lines
220-256): scan all keys for the tenant with the equality filter
`{"eq": str(tenant_id)}`, then delete them in batches of at most 100. -/
def delete_tenant_vectors_run (store : VecStore) (tenantId : Int) : DeleteOutcome :=
  let keys := scanTenantKeys (queryVectorsFiltered store (toString tenantId))
  let batches := chunkKeys keys
  ⟨runDeleteBatches store batches, batches⟩

/-- `delete_tenant_vectors` (rag_utils.py lines 217-264).  `queryInj`
injects a `ClientError` code raised by the first backend call inside the
`try` block (`none` means the backend calls succeed).  The `except
ClientError` handler (lines 258-264) prints and returns normally in both
of its arms: index-not-ready codes are skipped, and any other code is only
logged, with the comment "Do not crash indexing - continue". -/
def delete_tenant_vectors (store : VecStore) (tenantId : Int)
    (queryInj : Option String) : Except PyErr DeleteOutcome :=
  match queryInj with
  | some c =>
      if c == "ResourceNotFoundException" || c == "ValidationException" then
        .ok ⟨store, []⟩
      else
        .ok ⟨store, []⟩
  | none => .ok (delete_tenant_vectors_run store tenantId)

/-- A langchain document as the embedded code uses it: page content plus
the optional `source` metadata entry. -/
structure Document where
  page_content : String
  sourceMeta : Option String
deriving DecidableEq

/-- The response-to-documents conversion of `retrieve_s3_vectors`
(rag_utils.py lines 378-389): records whose trimmed `content_preview` is
empty are skipped; the rest become documents carrying the stored source.
The optional `similarity_score` metadata is not modelled; no claim
mentions it. -/
def buildDocs (vs : List VectorRecord) : List Document :=
  vs.filterMap (fun v =>
    let content := pyStrip v.metadata.content_preview
    if content == "" then none
    else some ⟨content, some v.metadata.source⟩)

/-- `retrieve_s3_vectors` (rag_utils.py lines 355-389), parameterised by
the outcomes of its three external calls in source order:
`ensure_vector_index()`, `embeddings.embed_query(query)` and the
tenant-filtered `query_vectors` call.  Only the query call sits inside the
`try` block; its `except ClientError` handler returns an empty list for
`ResourceNotFoundException` and also (after printing) for every other
client-error code.  Errors of the first two calls propagate. -/
def retrieve_s3_vectors (ensureRes : Except PyErr Unit)
    (embedRes : Except PyErr EmbVec)
    (queryRes : Except PyErr (List VectorRecord)) : Except PyErr (List Document) :=
  match ensureRes with
  | .error e => .error e
  | .ok _ =>
    match embedRes with
    | .error e => .error e
    | .ok _ =>
      match queryRes with
      | .ok vs => .ok (buildDocs vs)
      | .error (.clientError code) =>
          if code == "ResourceNotFoundException" then .ok [] else .ok []
      | .error e => .error e

/-- The records the `query_vectors` call of `retrieve_s3_vectors` returns
when the backend is healthy: the code always passes the filter
`{tenant_id: str(tenant_id)}` (rag_utils.py lines 367-369), so the backend
ranks only the tenant-filtered records and returns the top `topK`. -/
def retrieveQueryRecords (store : VecStore)
    (rank : List VectorRecord → List VectorRecord)
    (tenantId : Int) (topK : Nat) : List VectorRecord :=
  queryVectorsBackend store (toString tenantId) topK rank

/-- A text chunk as produced by the splitter, with its optional `source`
metadata entry. -/
structure Chunk where
  page_content : String
  sourceMeta : Option String
deriving DecidableEq

/-- One record of the upsert payload built by `index_tenant_files`
(rag_utils.py lines 322-331): a fresh key, the embedding, and metadata
tagging the record with `str(tenant_id)`, the chunk source (default
"unknown") and the first 500 characters of the chunk text. -/
def payloadRecord (tenantId : Int) (k : String) (v : EmbVec) (c : Chunk) : VectorRecord :=
  ⟨k, v, ⟨toString tenantId, c.sourceMeta.getD "unknown", ⟨c.page_content.data.take 500⟩⟩⟩

/-- The full upsert payload of `index_tenant_files`: one record per
embedded chunk, keyed by the freshly generated keys `ks`. -/
def buildPayload (tenantId : Int) (ks : List String)
    (vcs : List (EmbVec × Chunk)) : List VectorRecord :=
  (ks.zip vcs).map (fun p => payloadRecord tenantId p.1 p.2.1 p.2.2)

/-- The backend responses `ensure_vector_index` can observe, in source
order (rag_utils.py lines 163-215): whether `list_vector_buckets` already
contains the bucket, and for each of `create_vector_bucket`, the probing
`put_vectors`, the probe-cleanup `delete_vectors` and `create_index`, the
`ClientError` code it raises (`none` means the call succeeds). -/
structure EnsureEnv where
  bucketListed : Bool
  createBucketRes : Option String
  putPingRes : Option String
  deletePingRes : Option String
  createIndexRes : Option String
deriving DecidableEq

/-- The arguments of one `create_index` call. -/
structure CreateIndexParams where
  dataType : String
  dimension : Nat
  distanceMetric : String
deriving DecidableEq

/-- What a completed `ensure_vector_index` call did: whether it created
the bucket, and the `create_index` calls it attempted. -/
structure EnsureOutcome where
  createdBucket : Bool
  createCalls : List CreateIndexParams
deriving DecidableEq

/-- The fixed `create_index` arguments of rag_utils.py lines 196-205. -/
def indexCreateArgs : CreateIndexParams :=
  ⟨"float32", 1024, "cosine"⟩

/-- The outer `except ClientError` handler of `ensure_vector_index`
(rag_utils.py lines 208-215): conflict and in-use codes are treated as
success, anything else is re-raised. -/
def ensureOuterCatch (code : String) (sofar : EnsureOutcome) : Except String EnsureOutcome :=
  if code == "ConflictException" || code == "ResourceInUseException" then .ok sofar
  else .error code

/-- Step 3 of `ensure_vector_index` (rag_utils.py lines 195-206): attempt
`create_index`; a raised code goes to the outer handler. -/
def ensureCreateIndex (env : EnsureEnv) (bCreated : Bool) : Except String EnsureOutcome :=
  match env.createIndexRes with
  | none => .ok ⟨bCreated, [indexCreateArgs]⟩
  | some c => ensureOuterCatch c ⟨bCreated, [indexCreateArgs]⟩

/-- The inner `except ClientError` handler of the probe (rag_utils.py
lines 190-192): not-found and validation codes mean the index is missing,
so creation proceeds; any other code is re-raised to the outer handler. -/
def ensureInnerCatch (env : EnsureEnv) (bCreated : Bool) (code : String) : Except String EnsureOutcome :=
  if code == "NotFoundException" || code == "ValidationException" then
    ensureCreateIndex env bCreated
  else ensureOuterCatch code ⟨bCreated, []⟩

/-- `ensure_vector_index` (rag_utils.py lines 163-215): ensure the bucket
is listed (creating it if not), probe the index with a sentinel
`put_vectors` followed by a cleanup `delete_vectors`, return early if the
probe succeeds, otherwise create the index once; raised codes flow through
the two handlers modelled above. -/
def ensure_vector_index (env : EnsureEnv) : Except String EnsureOutcome :=
  let bCreated := !env.bucketListed
  match (if env.bucketListed then none else env.createBucketRes) with
  | some c => ensureOuterCatch c ⟨bCreated, []⟩
  | none =>
    match env.putPingRes with
    | some c => ensureInnerCatch env bCreated c
    | none =>
      match env.deletePingRes with
      | some c => ensureInnerCatch env bCreated c
      | none => .ok ⟨bCreated, []⟩

/-- The names bound at module level in `src/rag_model/rag_utils.py`: the
imported names of lines 1-26, the configuration constants and client
handles of lines 31-58, and the functions and classes defined in the
file.  Notably absent: `tempfile` and `shutil` are never imported, and
`is_valid_url` (lines 103-108) is commented out. -/
def ragUtilsModuleGlobals : List String :=
  ["os", "boto3", "random", "time", "json", "uuid", "re",
   "List", "Optional", "Dict", "Any", "ClientError", "urlparse", "urljoin",
   "ThreadPoolExecutor", "httpx", "BeautifulSoup",
   "PyPDFLoader", "CSVLoader", "TextLoader", "Docx2txtLoader", "JSONLoader",
   "RecursiveCharacterTextSplitter", "Document",
   "HumanMessage", "AIMessage", "SystemMessage", "ConversationBufferMemory",
   "BaseRetriever", "ChatPromptTemplate", "MessagesPlaceholder",
   "HumanMessagePromptTemplate", "create_retrieval_chain",
   "create_stuff_documents_chain",
   "S3_VECTORS_REGION", "S3_VECTORS_BUCKET_NAME", "S3_VECTORS_INDEX_NAME",
   "S3_BUCKET_NAME", "S3_PREFIX_KNOWLEDGE", "EMBEDDING_MODEL_ID",
   "LLM_MODEL", "REGION_NAME", "TENANT_ID_KEY", "SOURCE_KEY",
   "CONTENT_PREVIEW_KEY", "sqs", "INDEXING_QUEUE_URL",
   "bedrock_runtime", "s3_client", "s3vectors_client", "embeddings",
   "BASE_DIR", "FIXED_RESPONSES_FILE", "FIXED_RESPONSES", "f",
   "trigger_reindexing", "s3_append_url", "clean_text", "fetch_url_content",
   "crawl_urls_lightweight", "s3_list_tenant_files", "s3_load_urls_from_file",
   "ensure_vector_index", "delete_tenant_vectors", "index_tenant_files",
   "retrieve_s3_vectors", "S3VectorRetriever", "CONVERSATIONAL_RAG_PROMPT",
   "get_rag_chain", "answer_question_modern"]

/-- The list comprehension of `s3_load_urls_from_file` (rag_utils.py line
156): for each line, the blank guard `line.strip()` is evaluated first;
for a non-blank line, evaluation continues with the call
`is_valid_url(line.strip())`, which resolves the module-global name
`is_valid_url` and raises `NameError` if it is unbound.  The branch behind
a successful resolution is never reached in this module, because the
helper is commented out; it keeps the non-blank trimmed line. -/
def loadUrlLines : List String → Except PyErr (List String)
  | [] => .ok []
  | l :: ls =>
      if pyStrip l == "" then loadUrlLines ls
      else if "is_valid_url" ∈ ragUtilsModuleGlobals then
        match loadUrlLines ls with
        | .ok rest2 => .ok (pyStrip l :: rest2)
        | .error e => .error e
      else .error (.nameError "is_valid_url")

/-- `s3_load_urls_from_file` (rag_utils.py lines 152-158), parameterised
by the outcome of the `get_object` call for
`knowledge_base/{tenant_id}/urls.txt`: a raised `ClientError` (carrying
its code) is caught and yields the empty list; on success the comprehension
above processes the decoded content.  A `NameError` from the comprehension
is not a `ClientError` and propagates. -/
def s3_load_urls_from_file (getObjRes : Except String String) : Except PyErr (List String) :=
  match getObjRes with
  | .error _ => .ok []
  | .ok content => loadUrlLines (pySplitLines content)

/-- What a `index_tenant_files` run did: the pipeline stages that
completed, the returned value or raised exception, and the store the
vector backend was left with. -/
structure IndexRun where
  steps : List String
  result : Except PyErr Nat
  store : VecStore

/-- `index_tenant_files` (rag_utils.py lines 266-353) up to its third
statement: it calls `ensure_vector_index()` (whose propagated errors
abort the run), then `delete_tenant_vectors(tenant_id)`, and then
evaluates `temp_dir = tempfile.mkdtemp()` (line 272), which resolves the
module-global name `tempfile`.  The remainder of the pipeline (storage
listing, download, extraction, chunking, embedding, upsert) is the
abstract continuation `rest`, run on the store the delete left behind; it
is reached only if the name resolves. -/
def index_tenant_files (env : EnsureEnv) (store : VecStore) (tenantId : Int)
    (queryInj : Option String) (rest : VecStore → IndexRun) : IndexRun :=
  match ensure_vector_index env with
  | .error c => ⟨[], .error (.clientError c), store⟩
  | .ok _ =>
    match delete_tenant_vectors store tenantId queryInj with
    | .error e => ⟨["ensure_vector_index"], .error e, store⟩
    | .ok del =>
      if "tempfile" ∈ ragUtilsModuleGlobals then rest del.store
      else ⟨["ensure_vector_index", "delete_tenant_vectors"],
            .error (.nameError "tempfile"), del.store⟩

/-- An `EnsureEnv` in which the bucket is listed and every backend call
succeeds: the index exists and is ready. -/
def healthyEnsureEnv : EnsureEnv :=
  ⟨true, none, none, none, none⟩

/-- A value of the fixed-response table: either a plain string or a
structured object (a JSON dict with string entries). -/
inductive FixedVal where
  | str (s : String)
  | obj (entries : List (String × String))
deriving DecidableEq

/-- Python `str(...)` applied to a dict of strings, the fallback of
`fixed_resp.get("answer", str(fixed_resp))` (rag_utils.py line 455). -/
def pyStrOfObj (es : List (String × String)) : String :=
  "\x7b" ++ String.intercalate ", "
    (es.map (fun p => "\x27" ++ p.1 ++ "\x27: \x27" ++ p.2 ++ "\x27")) ++ "\x7d"

/-- The answer extraction of rag_utils.py lines 453-457: a dict value
yields its "answer" entry (falling back to the dict rendering), any other
value is converted with `str` (the identity on strings). -/
def extractFixedAnswer (v : FixedVal) : String :=
  match v with
  | .str s => s
  | .obj es => (es.lookup "answer").getD (pyStrOfObj es)

/-- The question normalisation of `answer_question_modern` (rag_utils.py
line 451): `question.strip().lower()`. -/
def pyNormalize (q : String) : String :=
  pyLower (pyStrip q)

/-- The result of invoking the retrieval chain: the generated answer and
the retrieved context documents. -/
structure RagChainResult where
  answer : String
  context : List Document
deriving DecidableEq

/-- The value `answer_question_modern` returns. -/
structure AnswerOut where
  answer : String
  sources : List String
deriving DecidableEq

/-- The deduplication `list(set(...))` of rag_utils.py line 462, modelled
as duplicate erasure (Python set order is unspecified; no claim depends on
the order). -/
def dedupSources (ss : List String) : List String :=
  ss.eraseDups

/-- `answer_question_modern` (rag_utils.py lines 450-463).  `table` is the
fixed-response table loaded at startup; `get_chain` abstracts
`get_rag_chain(tenant_id, ...)` followed by `chain(question)`, the path
that embeds the question and queries the vector backend.  The returned
boolean records whether that path (embedding plus vector backend) was
invoked.  On a table hit the canned answer is extracted, stripped and
returned with the sentinel source, without touching the chain. -/
def answer_question_modern (table : List (String × FixedVal)) (question : String)
    (tenantId : Int) (get_chain : Int → String → RagChainResult) : AnswerOut × Bool :=
  let cleaned := pyNormalize question
  match table.lookup cleaned with
  | some v => (⟨pyStrip (extractFixedAnswer v), ["Fixed Response"]⟩, false)
  | none =>
      let result := get_chain tenantId question
      (⟨result.answer,
        dedupSources (result.context.map (fun d => d.sourceMeta.getD "unknown"))⟩,
       true)

/-- A stub retrieval chain used for concrete evaluations. -/
def ragStub : Int → String → RagChainResult :=
  fun _ _ => ⟨"", []⟩

/-- What a `trigger_reindexing` call did: the exception it let escape (if
any), the tenant ids of the enqueued messages (the JSON body
`{"tenant_id": tenant_id}` is abstracted to the id it carries), and the
log lines it printed. -/
structure TriggerOutcome where
  raised : Option String
  enqueued : List Int
  logLines : List String
deriving DecidableEq

/-- `trigger_reindexing` (rag_utils.py lines 61-71), parameterised by the
outcome of `sqs.send_message`: on success the message is enqueued and a
confirmation printed; on any exception the bare `except Exception` handler
only prints, so nothing escapes and nothing is enqueued. -/
def trigger_reindexing (tenantId : Int) (sendRes : Except String Unit) : TriggerOutcome :=
  match sendRes with
  | .ok _ => ⟨none, [tenantId], ["Reindexing queued for tenant " ++ toString tenantId]⟩
  | .error e => ⟨none, [], ["SQS failed: " ++ e]⟩

/-!
Injectivity of the Python `str` conversion on integers, modelled by
`toString : Int → String`.  Tenant tags in vector metadata are
`str(tenant_id)`, so tenant isolation for distinct integer ids reduces to
this fact.
-/

theorem digitChar_lt10_inj : ∀ a < 10, ∀ b < 10,
    Nat.digitChar a = Nat.digitChar b → a = b := by decide

theorem digitChar_ne_dash (n : Nat) : Nat.digitChar n ≠ '-' := by
  by_cases h16 : n < 16
  · interval_cases n <;> decide
  · have hs : Nat.digitChar n = '*' := by
      unfold Nat.digitChar
      repeat rw [if_neg (by omega)]
    rw [hs]; decide

theorem toDigitsCore_eq_digits (fuel : Nat) : ∀ (n : Nat) (acc : List Char), 0 < n → n < fuel →
    Nat.toDigitsCore 10 fuel n acc = ((Nat.digits 10 n).map Nat.digitChar).reverse ++ acc := by
  induction fuel with
  | zero => intro n acc h0 hf; omega
  | succ f ih =>
    intro n acc h0 hf
    by_cases hdiv : n / 10 = 0
    · have hn10 : n < 10 := (Nat.div_eq_zero_iff (by decide)).mp hdiv
      rw [Nat.digits_of_lt 10 n (by omega) hn10]
      simp [Nat.toDigitsCore, hdiv, Nat.mod_eq_of_lt hn10]
    · have h0' : 0 < n / 10 := Nat.pos_of_ne_zero hdiv
      have hlt : n / 10 < n := Nat.div_lt_self h0 (by decide)
      simp only [Nat.toDigitsCore, hdiv, if_false]
      rw [ih (n / 10) _ h0' (by omega)]
      rw [Nat.digits_def' (by decide : (1 : Nat) < 10) h0]
      simp

theorem natRepr_eq_digits (n : Nat) (h0 : 0 < n) :
    Nat.repr n = (((Nat.digits 10 n).map Nat.digitChar).reverse).asString := by
  show (Nat.toDigits 10 n).asString = _
  unfold Nat.toDigits
  rw [toDigitsCore_eq_digits (n + 1) n [] h0 (by omega)]
  simp

theorem asString_inj {l₁ l₂ : List Char} (h : l₁.asString = l₂.asString) : l₁ = l₂ := by
  have h2 := congrArg String.data h
  simpa [List.asString] using h2

theorem map_digitChar_inj : ∀ l₁ l₂ : List Nat, (∀ x ∈ l₁, x < 10) → (∀ x ∈ l₂, x < 10) →
    l₁.map Nat.digitChar = l₂.map Nat.digitChar → l₁ = l₂ := by
  intro l₁
  induction l₁ with
  | nil =>
    intro l₂ _ _ h
    cases l₂ with
    | nil => rfl
    | cons b t => simp at h
  | cons a t ih =>
    intro l₂ h1 h2 h
    cases l₂ with
    | nil => simp at h
    | cons b t2 =>
      simp only [List.map_cons, List.cons.injEq] at h
      have ha : a = b := digitChar_lt10_inj a (h1 a (by simp)) b (h2 b (by simp)) h.1
      have ht : t = t2 := ih t2 (fun x hx => h1 x (by simp [hx])) (fun x hx => h2 x (by simp [hx])) h.2
      rw [ha, ht]

theorem natRepr_pos_ne_zero_repr (n : Nat) (hn : 0 < n) : Nat.repr n ≠ "0" := by
  intro h
  rw [natRepr_eq_digits n hn] at h
  have hd := congrArg String.data h
  simp only [List.asString] at hd
  have hrev : (Nat.digits 10 n).map Nat.digitChar = ['0'] := by
    have h2 := congrArg List.reverse hd
    simpa using h2
  cases hdig : Nat.digits 10 n with
  | nil => rw [hdig] at hrev; simp at hrev
  | cons d tl =>
    rw [hdig] at hrev
    simp only [List.map_cons, List.cons.injEq] at hrev
    have hd10 : d < 10 := Nat.digits_lt_base (by decide) (by rw [hdig]; simp)
    have hd0 : d = 0 := digitChar_lt10_inj d hd10 0 (by decide) hrev.1
    have htl : tl = [] := by
      cases tl with
      | nil => rfl
      | cons x xs => simp at hrev
    have hofd := Nat.ofDigits_digits 10 n
    rw [hdig, hd0, htl] at hofd
    simp [Nat.ofDigits] at hofd
    omega

theorem natRepr_inj : ∀ m n : Nat, Nat.repr m = Nat.repr n → m = n := by
  intro m n h
  rcases Nat.eq_zero_or_pos m with hm | hm <;> rcases Nat.eq_zero_or_pos n with hn | hn
  · omega
  · exact absurd h.symm (by subst hm; exact natRepr_pos_ne_zero_repr n hn)
  · exact absurd h (by subst hn; exact natRepr_pos_ne_zero_repr m hm)
  · rw [natRepr_eq_digits m hm, natRepr_eq_digits n hn] at h
    have h2 := asString_inj h
    have h3 : (Nat.digits 10 m).map Nat.digitChar = (Nat.digits 10 n).map Nat.digitChar :=
      List.reverse_injective h2
    have h4 : Nat.digits 10 m = Nat.digits 10 n :=
      map_digitChar_inj _ _ (fun x hx => Nat.digits_lt_base (by decide) hx)
        (fun x hx => Nat.digits_lt_base (by decide) hx) h3
    have h5 := congrArg (Nat.ofDigits 10) h4
    rw [Nat.ofDigits_digits, Nat.ofDigits_digits] at h5
    exact_mod_cast h5

theorem dash_not_mem_natRepr (m : Nat) : ('-') ∉ (Nat.repr m).data := by
  rcases Nat.eq_zero_or_pos m with hm | hm
  · subst hm; decide
  · rw [natRepr_eq_digits m hm]
    intro hmem
    simp only [List.asString, List.mem_reverse, List.mem_map] at hmem
    obtain ⟨x, _, hx⟩ := hmem
    exact digitChar_ne_dash x hx

theorem toString_int_inj : ∀ a b : Int, toString a = toString b → a = b := by
  intro a b h
  cases a with
  | ofNat m =>
    cases b with
    | ofNat n =>
      have h' : Nat.repr m = Nat.repr n := h
      exact congrArg Int.ofNat (natRepr_inj m n h')
    | negSucc n =>
      exfalso
      have h' : Nat.repr m = "-" ++ Nat.repr (n + 1) := h
      have hd : (Nat.repr m).data = '-' :: (Nat.repr (n + 1)).data := by
        simpa using congrArg String.data h'
      have hmem : ('-') ∈ (Nat.repr m).data := by
        rw [hd]; exact List.mem_cons_self _ _
      exact dash_not_mem_natRepr m hmem
  | negSucc m =>
    cases b with
    | ofNat n =>
      exfalso
      have h' : Nat.repr n = "-" ++ Nat.repr (m + 1) := h.symm
      have hd : (Nat.repr n).data = '-' :: (Nat.repr (m + 1)).data := by
        simpa using congrArg String.data h'
      have hmem : ('-') ∈ (Nat.repr n).data := by
        rw [hd]; exact List.mem_cons_self _ _
      exact dash_not_mem_natRepr n hmem
    | negSucc n =>
      have h' : "-" ++ Nat.repr (m + 1) = "-" ++ Nat.repr (n + 1) := h
      have hd := congrArg String.data h'
      simp only [String.data_append] at hd
      have hd2 : (Nat.repr (m + 1)).data = (Nat.repr (n + 1)).data :=
        List.append_cancel_left hd
      have := natRepr_inj (m + 1) (n + 1) (String.ext hd2)
      exact congrArg Int.negSucc (by omega)

theorem toString_int_ne {a b : Int} (h : a ≠ b) : toString a ≠ toString b :=
  fun hc => h (toString_int_inj a b hc)

/-!
Properties of the paginated scan-then-batch-delete loop.
-/

theorem scanTenantKeys_eq (l : List VectorRecord) :
    scanTenantKeys l = l.map (fun r => r.key) := by
  induction l using scanTenantKeys.induct with
  | case1 l hl =>
    rw [scanTenantKeys, dif_pos hl]
    rw [List.isEmpty_iff] at hl
    simp [hl]
  | case2 l hl ih =>
    rw [scanTenantKeys, dif_neg hl, ih]
    rw [← List.map_append, List.take_append_drop]

theorem chunkKeys_flatten (ks : List String) : (chunkKeys ks).flatten = ks := by
  induction ks using chunkKeys.induct with
  | case1 ks hl =>
    rw [chunkKeys, dif_pos hl]
    rw [List.isEmpty_iff] at hl
    simp [hl]
  | case2 ks hl ih =>
    rw [chunkKeys, dif_neg hl]
    simp [ih]

theorem chunkKeys_le (ks : List String) : ∀ b ∈ chunkKeys ks, b.length ≤ 100 := by
  induction ks using chunkKeys.induct with
  | case1 ks hl =>
    rw [chunkKeys, dif_pos hl]
    simp
  | case2 ks hl ih =>
    rw [chunkKeys, dif_neg hl]
    intro b hb
    rcases List.mem_cons.mp hb with hb | hb
    · subst hb
      simp [List.length_take]
    · exact ih b hb

theorem mem_runDeleteBatches (bs : List (List String)) (store : VecStore) (r : VectorRecord) :
    r ∈ (runDeleteBatches store bs).records ↔
      r ∈ store.records ∧ ∀ b ∈ bs, ¬ (b.contains r.key = true) := by
  induction bs generalizing store with
  | nil => simp [runDeleteBatches]
  | cons b bs ih =>
    show r ∈ (runDeleteBatches (deleteVectorsBackend store b) bs).records ↔ _
    rw [ih]
    simp only [deleteVectorsBackend, List.mem_filter, Bool.not_eq_true',
      List.forall_mem_cons, Bool.not_eq_true]
    tauto

theorem delete_run_clears (store : VecStore) (tenantId : Int) :
    queryVectorsFiltered (delete_tenant_vectors_run store tenantId).store
      (toString tenantId) = [] := by
  rw [queryVectorsFiltered, List.filter_eq_nil_iff]
  intro r hr hmatch
  have hrun : r ∈ (runDeleteBatches store
      (chunkKeys (scanTenantKeys (queryVectorsFiltered store (toString tenantId))))).records := hr
  rw [mem_runDeleteBatches] at hrun
  obtain ⟨hrs, hnb⟩ := hrun
  have hrf : r ∈ queryVectorsFiltered store (toString tenantId) :=
    List.mem_filter.mpr ⟨hrs, hmatch⟩
  have hkey : r.key ∈ (queryVectorsFiltered store (toString tenantId)).map (fun x => x.key) :=
    List.mem_map_of_mem _ hrf
  rw [← scanTenantKeys_eq, ← chunkKeys_flatten (scanTenantKeys _)] at hkey
  rw [List.mem_flatten] at hkey
  obtain ⟨b, hb, hkb⟩ := hkey
  exact hnb b hb (List.elem_iff.mpr hkb)

/-- C5: delete_all postcondition and mechanism.  With a healthy backend,
`delete_tenant_vectors(tenant_id)` runs the paginated scan (pages of at
most 30 keys, until the continuation token is exhausted), accumulating
exactly the keys of every record tagged with the tenant, then deletes them
in batches of at most 100 keys per call; afterwards a tenant-scoped query
returns zero records. -/
theorem c5_delete_all_postcondition (store : VecStore) (tenantId : Int) :
    delete_tenant_vectors store tenantId none = .ok (delete_tenant_vectors_run store tenantId)
    ∧ (delete_tenant_vectors_run store tenantId).batches.flatten
        = (queryVectorsFiltered store (toString tenantId)).map (fun r => r.key)
    ∧ (∀ b ∈ (delete_tenant_vectors_run store tenantId).batches, b.length ≤ 100)
    ∧ queryVectorsFiltered (delete_tenant_vectors_run store tenantId).store
        (toString tenantId) = []
    ∧ (∀ (rank : List VectorRecord → List VectorRecord) (topK : Nat),
        (∀ l (r : VectorRecord), r ∈ rank l → r ∈ l) →
        queryVectorsBackend (delete_tenant_vectors_run store tenantId).store
          (toString tenantId) topK rank = []) := by
  have hclear := delete_run_clears store tenantId
  refine ⟨rfl, ?_, ?_, hclear, ?_⟩
  · show (chunkKeys (scanTenantKeys _)).flatten = _
    rw [chunkKeys_flatten, scanTenantKeys_eq]
  · show ∀ b ∈ chunkKeys (scanTenantKeys _), b.length ≤ 100
    exact chunkKeys_le _
  · intro rank topK hrank
    rw [queryVectorsBackend, hclear]
    have hnil : rank [] = [] := by
      rw [List.eq_nil_iff_forall_not_mem]
      intro r hr
      exact (List.not_mem_nil r) (hrank [] r hr)
    rw [hnil, List.take_nil]

/-- C5 witness: the theorem applied to a one-record store for tenant 7,
with the identity ranking and the top-8 query. -/
theorem c5_delete_all_postcondition_witness :
    queryVectorsBackend
      (delete_tenant_vectors_run ⟨[⟨"k1", [], ⟨"7", "s", "c"⟩⟩]⟩ 7).store "7" 8 id = [] :=
  (c5_delete_all_postcondition ⟨[⟨"k1", [], ⟨"7", "s", "c"⟩⟩]⟩ 7).2.2.2.2
    id 8 (fun _ _ hr => hr)

/-- C6: graceful degradation when the index is not yet provisioned.  A
similarity query whose backend call raises `ResourceNotFoundException`
returns the empty result instead of raising, and `delete_tenant_vectors`
whose scan raises `ResourceNotFoundException` returns normally without
issuing any delete call, leaving the store untouched. -/
theorem c6_graceful_degradation (v : EmbVec) (store : VecStore) (tenantId : Int) :
    retrieve_s3_vectors (.ok ()) (.ok v)
        (.error (.clientError "ResourceNotFoundException")) = .ok []
    ∧ delete_tenant_vectors store tenantId (some "ResourceNotFoundException")
        = .ok ⟨store, []⟩ :=
  ⟨rfl, rfl⟩

/-- C4 counterexample: an unexpected backend error code
(`InternalServerException`, which is neither an index-not-ready nor a
creation-race code) raised by the query call is not propagated: the
similarity query returns an ok empty result and the delete returns ok,
so neither operation surfaces to its caller as failed. -/
theorem c4_counterexample :
    retrieve_s3_vectors (.ok ()) (.ok [])
        (.error (.clientError "InternalServerException")) = .ok []
    ∧ delete_tenant_vectors ⟨[]⟩ 7 (some "InternalServerException") = .ok ⟨⟨[]⟩, []⟩ :=
  ⟨rfl, rfl⟩

/-- C4 amended: every `ClientError` code raised by the vector-index calls
inside the guarded regions of `delete_tenant_vectors` and
`retrieve_s3_vectors` is caught and logged rather than propagated — the
delete returns normally and the query returns an empty result — while
errors raised by `ensure_vector_index` or by the embedding call, which run
before the guarded region of `retrieve_s3_vectors`, do propagate to the
caller. -/
theorem c4_amended_swallow (c : String) (v : EmbVec) (store : VecStore) (tenantId : Int)
    (e : PyErr) (embedRes : Except PyErr EmbVec) (queryRes : Except PyErr (List VectorRecord)) :
    retrieve_s3_vectors (.ok ()) (.ok v) (.error (.clientError c)) = .ok []
    ∧ delete_tenant_vectors store tenantId (some c) = .ok ⟨store, []⟩
    ∧ retrieve_s3_vectors (.error e) embedRes queryRes = .error e
    ∧ retrieve_s3_vectors (.ok ()) (.error e) queryRes = .error e := by
  refine ⟨?_, ?_, rfl, rfl⟩
  · show (if c == "ResourceNotFoundException" then _ else _) = _
    split <;> rfl
  · show (if c == "ResourceNotFoundException" || c == "ValidationException" then _ else _) = _
    split <;> rfl

/-- C1: tenant isolation of retrieval.  For tenants A ≠ B, a similarity
query scoped to A — which always carries the filter `str(A)` — never
returns a record whose `tenant_id` metadata is the tag of B, whatever the
similarity ranking does; and every record of the upsert payload built by
`index_tenant_files` is tagged with exactly the indexing tenant's id. -/
theorem c1_tenant_isolation (store : VecStore)
    (rank : List VectorRecord → List VectorRecord)
    (hrank : ∀ l (r : VectorRecord), r ∈ rank l → r ∈ l)
    (A B : Int) (hAB : A ≠ B) (topK : Nat) :
    (∀ r ∈ retrieveQueryRecords store rank A topK,
        r.metadata.tenant_id = toString A ∧ r.metadata.tenant_id ≠ toString B)
    ∧ (∀ (ks : List String) (vcs : List (EmbVec × Chunk)),
        ∀ r ∈ buildPayload A ks vcs, r.metadata.tenant_id = toString A) := by
  constructor
  · intro r hr
    have h1 : r ∈ rank (queryVectorsFiltered store (toString A)) :=
      List.mem_of_mem_take hr
    have h2 : r ∈ queryVectorsFiltered store (toString A) := hrank _ r h1
    have h3 := (List.mem_filter.mp h2).2
    have htag : r.metadata.tenant_id = toString A := by
      simpa [matchesTenant] using h3
    exact ⟨htag, by rw [htag]; exact toString_int_ne hAB⟩
  · intro ks vcs r hr
    obtain ⟨p, _, rfl⟩ := List.mem_map.mp hr
    rfl

/-- C1 witness: the isolation theorem applied to a singleton store for
tenants 1 and 2 with the identity ranking and the top-8 query. -/
theorem c1_tenant_isolation_witness :
    (∀ r ∈ retrieveQueryRecords ⟨[⟨"k1", [], ⟨"1", "s", "c"⟩⟩]⟩ id 1 8,
        r.metadata.tenant_id = toString (1 : Int) ∧ r.metadata.tenant_id ≠ toString (2 : Int))
    ∧ (∀ (ks : List String) (vcs : List (EmbVec × Chunk)),
        ∀ r ∈ buildPayload 1 ks vcs, r.metadata.tenant_id = toString (1 : Int)) :=
  c1_tenant_isolation ⟨[⟨"k1", [], ⟨"1", "s", "c"⟩⟩]⟩ id (fun _ _ h => h) 1 2 (by decide) 8

/-- C2: the re-index pipeline cannot run.  `rag_utils.py` never imports
`tempfile` (nor `shutil`), so with a healthy backend `index_tenant_files`
performs the ensure and delete steps and then raises
`NameError: name tempfile is not defined` at line 272, before listing
storage, downloading, chunking, embedding or upserting anything; the
tenant's vectors have already been deleted. -/
theorem c2_reindex_raises_name_error (store : VecStore) (tenantId : Int)
    (rest : VecStore → IndexRun) :
    ("tempfile" ∉ ragUtilsModuleGlobals ∧ "shutil" ∉ ragUtilsModuleGlobals)
    ∧ index_tenant_files healthyEnsureEnv store tenantId none rest =
        ⟨["ensure_vector_index", "delete_tenant_vectors"],
          .error (.nameError "tempfile"),
          (delete_tenant_vectors_run store tenantId).store⟩ :=
  ⟨⟨by decide, by decide⟩, rfl⟩

/-- C3: the URL registry cannot be read when it has content.  The helper
`is_valid_url` is commented out in `rag_utils.py`, so a missing
`urls.txt` object still yields the empty list (the `ClientError` is
caught), but any registry containing a non-blank line makes
`s3_load_urls_from_file` raise `NameError: name is_valid_url is not
defined` instead of returning the URL list. -/
theorem c3_url_registry_behaviour :
    "is_valid_url" ∉ ragUtilsModuleGlobals
    ∧ s3_load_urls_from_file (.error "NoSuchKey") = .ok []
    ∧ s3_load_urls_from_file (.ok "https://example.com\n")
        = .error (.nameError "is_valid_url") :=
  ⟨by decide, rfl, rfl⟩

/-- C7 counterexample: for the table entry mapping "q" to the plain value
"  hi  ", the returned answer is the stripped string "hi", not the plain
string value itself. -/
theorem c7_counterexample :
    answer_question_modern [("q", FixedVal.str "  hi  ")] "q" 1 ragStub
        = (⟨"hi", ["Fixed Response"]⟩, false)
    ∧ "hi" ≠ "  hi  " :=
  ⟨rfl, by decide⟩

/-- C7 amended: on a fixed-response hit for the trimmed-and-lowercased
question, the answer returned is the canned answer stripped of leading and
trailing whitespace (the plain string value, or the inner answer string of
a structured object, in either case trimmed), the sources are exactly
["Fixed Response"], and the retrieval chain — embedding and vector
backend — is not invoked. -/
theorem c7_fixed_response_hit (table : List (String × FixedVal)) (question : String)
    (tenantId : Int) (get_chain : Int → String → RagChainResult) (v : FixedVal)
    (hv : table.lookup (pyNormalize question) = some v) :
    answer_question_modern table question tenantId get_chain
      = (⟨pyStrip (extractFixedAnswer v), ["Fixed Response"]⟩, false) := by
  simp [answer_question_modern, hv]

/-- C7 witness: a hit on the key "greeting" by the question " GREETING "
returns the trimmed canned answer without invoking the chain. -/
theorem c7_fixed_response_hit_witness :
    answer_question_modern [("greeting", FixedVal.str " hello ")] " GREETING " 1 ragStub
      = (⟨"hello", ["Fixed Response"]⟩, false) :=
  c7_fixed_response_hit [("greeting", FixedVal.str " hello ")] " GREETING " 1 ragStub
    (FixedVal.str " hello ") rfl

/-- C8 counterexample: with the table mapping "hours" to "We're open
9-5.", the question "Hours?" normalises to "hours?" (trimming and
lowercasing do not remove the question mark), misses the table, and the
call goes to the retrieval chain: the claimed fixed response is not
returned. -/
theorem c8_counterexample :
    answer_question_modern [("hours", FixedVal.str "We\x27re open 9-5.")] "Hours?" 7 ragStub
        ≠ (⟨"We\x27re open 9-5.", ["Fixed Response"]⟩, false)
    ∧ answer_question_modern [("hours", FixedVal.str "We\x27re open 9-5.")] "Hours?" 7 ragStub
        = (⟨"", []⟩, true) :=
  ⟨by decide, rfl⟩

/-- C8 amended: with the table mapping "hours" to "We're open 9-5.",
asking "Hours" (whose trim-and-lowercase normalisation is "hours") for
any tenant and any retrieval chain returns exactly the canned answer with
sources ["Fixed Response"], without invoking embedding or the vector
backend. -/
theorem c8_fixed_response_scenario (tenantId : Int)
    (get_chain : Int → String → RagChainResult) :
    answer_question_modern [("hours", FixedVal.str "We\x27re open 9-5.")] "Hours"
        tenantId get_chain
      = (⟨"We\x27re open 9-5.", ["Fixed Response"]⟩, false) :=
  rfl

/-- C9: the probe-and-create contract of `ensure_vector_index`, for any
environment in which the bucket step succeeds.  If the sentinel
write-then-delete probe succeeds, the call returns without attempting any
`create_index`; if the write fails with a not-found or invalid signal, the
index is created with dimension 1024 and cosine metric; if that creation
fails with a conflict or in-use signal, the call still returns success;
any other failure, of the probe or of the creation, is propagated. -/
theorem c9_ensure_contract (env : EnsureEnv) (hB : env.createBucketRes = none) :
    (indexCreateArgs.dimension = 1024 ∧ indexCreateArgs.distanceMetric = "cosine")
    ∧ (env.putPingRes = none → env.deletePingRes = none →
        ensure_vector_index env = .ok ⟨!env.bucketListed, []⟩)
    ∧ (∀ c, env.putPingRes = some c →
        (c = "NotFoundException" ∨ c = "ValidationException") →
        env.createIndexRes = none →
        ensure_vector_index env = .ok ⟨!env.bucketListed, [indexCreateArgs]⟩)
    ∧ (∀ c c2, env.putPingRes = some c →
        (c = "NotFoundException" ∨ c = "ValidationException") →
        env.createIndexRes = some c2 →
        (c2 = "ConflictException" ∨ c2 = "ResourceInUseException") →
        ensure_vector_index env = .ok ⟨!env.bucketListed, [indexCreateArgs]⟩)
    ∧ (∀ c c2, env.putPingRes = some c →
        (c = "NotFoundException" ∨ c = "ValidationException") →
        env.createIndexRes = some c2 →
        ¬(c2 = "ConflictException" ∨ c2 = "ResourceInUseException") →
        ensure_vector_index env = .error c2)
    ∧ (∀ c, env.putPingRes = some c →
        ¬(c = "NotFoundException" ∨ c = "ValidationException") →
        ¬(c = "ConflictException" ∨ c = "ResourceInUseException") →
        ensure_vector_index env = .error c) := by
  obtain ⟨bl, cbr, ppr, dpr, cir⟩ := env
  simp only at hB
  subst hB
  refine ⟨⟨rfl, rfl⟩, ?_, ?_, ?_, ?_, ?_⟩
  · intro h1 h2
    simp only at h1 h2
    subst h1; subst h2
    cases bl <;> rfl
  · intro c h1 hc h3
    simp only at h1 h3
    subst h1; subst h3
    rcases hc with rfl | rfl <;> cases bl <;> rfl
  · intro c c2 h1 hc h3 hc2
    simp only at h1 h3
    subst h1; subst h3
    rcases hc with rfl | rfl <;> rcases hc2 with rfl | rfl <;> cases bl <;> rfl
  · intro c c2 h1 hc h3 hneg
    simp only at h1 h3
    subst h1; subst h3
    obtain ⟨hn1, hn2⟩ := not_or.mp hneg
    have hb2 : (c2 == "ConflictException" || c2 == "ResourceInUseException") = false := by
      simp [hn1, hn2]
    rcases hc with rfl | rfl <;> cases bl <;>
      simp [ensure_vector_index, ensureInnerCatch, ensureCreateIndex, ensureOuterCatch, hb2]
  · intro c h1 hnotNF hnotConf
    simp only at h1
    subst h1
    obtain ⟨hn1, hn2⟩ := not_or.mp hnotNF
    obtain ⟨hn3, hn4⟩ := not_or.mp hnotConf
    have hb1 : (c == "NotFoundException" || c == "ValidationException") = false := by
      simp [hn1, hn2]
    have hb2 : (c == "ConflictException" || c == "ResourceInUseException") = false := by
      simp [hn3, hn4]
    cases bl <;>
      simp [ensure_vector_index, ensureInnerCatch, ensureOuterCatch, hb1, hb2]

/-- C9 witness: in an environment where the bucket is listed and the probe
write fails with `NotFoundException`, the index gets created with the
fixed arguments and the call succeeds. -/
theorem c9_ensure_contract_witness :
    ensure_vector_index ⟨true, none, some "NotFoundException", none, none⟩
      = .ok ⟨false, [indexCreateArgs]⟩ :=
  (c9_ensure_contract ⟨true, none, some "NotFoundException", none, none⟩ rfl).2.2.1
    "NotFoundException" rfl (Or.inl rfl) rfl

/-- C10: `trigger_reindexing` never lets an exception escape — the bare
except handler only logs — so the request path of a knowledge-base
mutation always completes; when the enqueue fails, the message is simply
lost and no error is surfaced. -/
theorem c10_trigger_never_raises (tenantId : Int) (sendRes : Except String Unit) :
    (trigger_reindexing tenantId sendRes).raised = none
    ∧ (trigger_reindexing tenantId sendRes).enqueued
        = (match sendRes with | .ok _ => [tenantId] | .error _ => []) := by
  cases sendRes <;> exact ⟨rfl, rfl⟩
